import Mathlib

/-!
Shallow embedding of `crates/drag_and_drop/src/drag_and_drop.rs` (zed).

Modelling decisions, each tied to the Rust source:

* `Vector2F` / `RectF` (gpui geometry) are embedded with `Int` coordinates;
  the claims are about which fields flow where, not about float rounding.
* The type-erased payload `Rc<dyn Any>` is embedded as a value together with a
  runtime type tag (`Payload`), with `is` / `downcast` mirroring
  `Any::is::<T>()` and `Rc::downcast::<T>()`: a downcast succeeds exactly when
  the tag matches.  A generic parameter `T : Any` of the Rust API becomes an
  explicit tag argument `T : Nat`.
* The type-erased render adapter built in `DragAndDrop::dragging`
  (`Rc::new(move |payload, cx| render(payload.downcast_ref::<T>().unwrap(), cx))`)
  is embedded as `RenderFn`: the tag it downcasts to plus the user's typed
  render function (contents are abstracted as `Nat`).  `RenderFn.apply`
  returns `none` exactly when the `unwrap` would panic.
* The container registry (`HashSet<WeakViewHandle<V>>`) is a list of
  `Container`s (identity plus window id); whether a weak handle upgrades is an
  external fact, passed in as `alive : Nat → Bool` keyed by container id.
* Stateful methods become explicit state passing: each operation maps a
  `DragAndDrop` store to the new store paired with the ordered list of
  observable `Event`s the Rust statements produce, in statement order: every
  assignment to `self.currently_dragged` (including the write performed by
  `Option::take`) emits `Event.set_state`, and the `retain` pass inside
  `notify_containers_for_window` emits `Event.notified` / `Event.pruned` per
  container.
-/

namespace Dnd

/-- Planar vector, embedding gpui's `Vector2F` with `Int` coordinates. -/
structure Vector2F where
  x : Int
  y : Int
deriving DecidableEq

instance : Add Vector2F := ⟨fun a b => ⟨a.x + b.x, a.y + b.y⟩⟩

instance : Sub Vector2F := ⟨fun a b => ⟨a.x - b.x, a.y - b.y⟩⟩

/-- Rectangle, embedding gpui's `RectF` as origin plus size. -/
structure RectF where
  origin : Vector2F
  size : Vector2F
deriving DecidableEq

def RectF.width (r : RectF) : Int := r.size.x

def RectF.height (r : RectF) : Int := r.size.y

/-- Embedding of `scene::MouseDrag`: the fields `DragAndDrop::dragging` reads. -/
structure MouseDrag where
  position : Vector2F
  prev_mouse_position : Vector2F
  region : RectF
deriving DecidableEq

/-- Embedding of `Rc<dyn Any>`: a runtime type tag plus an opaque value. -/
structure Payload where
  tag : Nat
  val : Nat
deriving DecidableEq

/-- Embedding of `Any::is::<T>()`: runtime type-tag equality. -/
def Payload.is (p : Payload) (T : Nat) : Bool := p.tag == T

/-- Embedding of `Rc::downcast::<T>(..).ok()` / `downcast_ref::<T>()`:
succeeds exactly when the runtime tag matches the requested tag. -/
def Payload.downcast (p : Payload) (T : Nat) : Option Nat :=
  if p.tag = T then some p.val else none

/-- Embedding of the type-erased render closure stored in the session: the tag
`T` it was built at, plus the user's typed render function (render output is
abstracted as `Nat`). -/
structure RenderFn where
  tag : Nat
  fn : Nat → Nat

/-- Applying the adapter `|payload, cx| render(payload.downcast_ref::<T>().unwrap(), cx)`.
`none` models the panic of the `unwrap` on a type mismatch. -/
def RenderFn.apply (r : RenderFn) (p : Payload) : Option Nat :=
  (p.downcast r.tag).map r.fn

/-- Embedding of `enum State<V>` (drag_and_drop.rs lines 14-24): a live session
with its fields in source order, or the canceled marker (which stores
nothing). -/
inductive State where
  | Dragging (window_id : Nat) (position : Vector2F) (region_offset : Vector2F)
      (region : RectF) (payload : Payload) (render : RenderFn)
  | Canceled

/-- Embedding of a registered container: its identity (the weak view handle)
and the window it lives in.  Liveness is external, see `alive` parameters. -/
structure Container where
  id : Nat
  window_id : Nat
deriving DecidableEq

/-- Embedding of `struct DragAndDrop<V>`: the registered containers and the
optional current session. -/
structure DragAndDrop where
  containers : List Container
  currently_dragged : Option State

/-- Embedding of `Default for DragAndDrop`: empty registry, no session. -/
def DragAndDrop.default : DragAndDrop := ⟨[], none⟩

/-- Observable effects of one store operation, in the order the Rust
statements produce them:  `set_state s` for each assignment to
`self.currently_dragged` (with the value written), `notified i` for each
`container.update(cx, |_, cx| cx.notify())`, `pruned i` for each weak handle
dropped by the `retain` pass. -/
inductive Event where
  | set_state (s : Option State)
  | notified (container_id : Nat)
  | pruned (container_id : Nat)

/-- Events of the `retain` pass of `notify_containers_for_window` (lines
242-253), in container order: a live container whose window matches is
notified, a live container in another window is kept silently, a dead one is
pruned. -/
def containerEvents : List Container → Nat → (Nat → Bool) → List Event
  | [], _, _ => []
  | c :: rest, window_id, alive =>
      (if alive c.id then
        (if c.window_id = window_id then [Event.notified c.id] else [])
      else [Event.pruned c.id]) ++ containerEvents rest window_id alive

/-- The container ids carried by the `notified` events of a trace. -/
def notifiedIds : List Event → List Nat
  | [] => []
  | Event.set_state _ :: rest => notifiedIds rest
  | Event.notified i :: rest => i :: notifiedIds rest
  | Event.pruned _ :: rest => notifiedIds rest

/-- Embedding of `DragAndDrop::register_container` (lines 64-66): set insert,
uniqueness by identity. -/
def DragAndDrop.register_container (this : DragAndDrop) (c : Container) : DragAndDrop :=
  if this.containers.contains c then this
  else { this with containers := this.containers ++ [c] }

/-- Embedding of `DragAndDrop::notify_containers_for_window` (lines 242-253):
retains the live containers and notifies the retained ones whose window
matches. -/
def DragAndDrop.notify_containers_for_window (this : DragAndDrop) (window_id : Nat)
    (alive : Nat → Bool) : DragAndDrop × List Event :=
  ({ this with containers := this.containers.filter (fun c => alive c.id) },
    containerEvents this.containers window_id alive)

/-- Embedding of `DragAndDrop::currently_dragged::<T>` (lines 68-90), the
`currentDrag<T>(windowId)` query: window guard, then the
`is::<T>() / downcast::<T>().ok()` chain. -/
def DragAndDrop.currentlyDragged (this : DragAndDrop) (T : Nat) (window_id : Nat) :
    Option (Vector2F × Nat) :=
  this.currently_dragged.bind fun state =>
    match state with
    | State.Dragging window_dragged_from position _ _ payload _ =>
        if window_id ≠ window_dragged_from then none
        else
          ((if payload.is T then payload.downcast T else none).map
            fun pv => (position, pv))
    | State.Canceled => none

/-- Embedding of `DragAndDrop::dragging::<T>` (lines 92-131).  `window_id` is
`cx.window_id()`.  The Rust function receives `payload : Rc<T>` and a typed
`render`; here that typing is the shared tag `T` of the stored `Payload` and
`RenderFn`.  Statement order: notify first, then the `Canceled` early return,
then the session write (no window comparison anywhere). -/
def DragAndDrop.dragging (this : DragAndDrop) (window_id : Nat) (event : MouseDrag)
    (T : Nat) (pval : Nat) (render : Nat → Nat) (alive : Nat → Bool) :
    DragAndDrop × List Event :=
  let p := this.notify_containers_for_window window_id alive
  let this1 := p.1
  match this1.currently_dragged with
  | some State.Canceled => (this1, p.2)
  | cur =>
      let rr := match cur with
        | some (State.Dragging _ _ region_offset region _ _) => (region_offset, region)
        | _ => (event.region.origin - event.prev_mouse_position, event.region)
      let st := State.Dragging window_id event.position rr.1 rr.2 ⟨T, pval⟩ ⟨T, render⟩
      ({ this1 with currently_dragged := some st }, p.2 ++ [Event.set_state (some st)])

/-- Embedding of `DragAndDrop::cancel_dragging::<P>` (lines 222-234): only a
live `Dragging` session whose payload `is::<P>()` is affected; the state is
written first, then the session's window is notified. -/
def DragAndDrop.cancel_dragging (this : DragAndDrop) (P : Nat) (alive : Nat → Bool) :
    DragAndDrop × List Event :=
  match this.currently_dragged with
  | some (State.Dragging window_id _ _ _ payload _) =>
      if payload.is P then
        let this1 := { this with currently_dragged := some State.Canceled }
        let p := this1.notify_containers_for_window window_id alive
        (p.1, Event.set_state (some State.Canceled) :: p.2)
      else (this, [])
  | _ => (this, [])

/-- Embedding of `DragAndDrop::finish_dragging` (lines 236-240).
`self.currently_dragged.take()` writes `None` unconditionally (also when the
state was `Canceled` or already `None`); only when the taken value was
`Dragging` is the session's window notified. -/
def DragAndDrop.finish_dragging (this : DragAndDrop) (alive : Nat → Bool) :
    DragAndDrop × List Event :=
  let taken := this.currently_dragged
  let this1 := { this with currently_dragged := none }
  match taken with
  | some (State.Dragging window_id _ _ _ _ _) =>
      let p := this1.notify_containers_for_window window_id alive
      (p.1, Event.set_state none :: p.2)
  | _ => (this1, [Event.set_state none])

/-- Embedding of the release handlers of the `Canceled` render branch (lines
199-214): both `on_up` and `on_up_out` just write `self.currently_dragged =
None`, with no notification.  This is the spec's `clearCanceled`. -/
def DragAndDrop.clear_canceled (this : DragAndDrop) : DragAndDrop × List Event :=
  ({ this with currently_dragged := none }, [Event.set_state none])

/-- Renderer output (lines 133-220): either the dragging overlay — anchor
`position + region_offset`, constrained to the region's width and height,
containing the adapter applied to the session's payload (`none` = the
`unwrap` panicked) — or the zero-size release-capture element of the
`Canceled` branch. -/
inductive RenderOutput where
  | overlay (anchor : Vector2F) (width height : Int) (content : Option Nat)
  | capture

/-- Embedding of `DragAndDrop::render` (lines 133-220) for the asking window
`cx.window_id()`: `None` when idle, `None` when a session belongs to another
window, the overlay for the session's own window, and the capture element in
the `Canceled` state (no window check there). -/
def DragAndDrop.render (this : DragAndDrop) (asking_window : Nat) : Option RenderOutput :=
  this.currently_dragged.bind fun state =>
    match state with
    | State.Dragging window_id position region_offset region payload renderf =>
        if asking_window ≠ window_id then none
        else
          some (RenderOutput.overlay (position + region_offset)
            region.width region.height (renderf.apply payload))
    | State.Canceled => some RenderOutput.capture

/-- One call of `DragAndDrop::dragging` as data, for folding sequences of
drag-continuation events: the `MouseDrag`, the payload's tag and value, and
the typed render function. -/
structure DragCall where
  event : MouseDrag
  tag : Nat
  value : Nat
  render : Nat → Nat

/-- Folding a sequence of drag-continuation events of one window (no
intervening release or cancel) over the store. -/
def applyDrags (window_id : Nat) (alive : Nat → Bool) :
    DragAndDrop → List DragCall → DragAndDrop
  | s, [] => s
  | s, d :: rest =>
      applyDrags window_id alive (s.dragging window_id d.event d.tag d.value d.render alive).1 rest

/-- Stores reachable from the default store through the public operations. -/
inductive Reachable : DragAndDrop → Prop where
  | init : Reachable DragAndDrop.default
  | register (s : DragAndDrop) (c : Container) :
      Reachable s → Reachable (s.register_container c)
  | drag (s : DragAndDrop) (window_id : Nat) (event : MouseDrag) (T pval : Nat)
      (render : Nat → Nat) (alive : Nat → Bool) :
      Reachable s → Reachable (s.dragging window_id event T pval render alive).1
  | cancel (s : DragAndDrop) (P : Nat) (alive : Nat → Bool) :
      Reachable s → Reachable (s.cancel_dragging P alive).1
  | finish (s : DragAndDrop) (alive : Nat → Bool) :
      Reachable s → Reachable (s.finish_dragging alive).1
  | clear (s : DragAndDrop) :
      Reachable s → Reachable s.clear_canceled.1

/-- Window of the stored session, when it is `Dragging`. -/
def sessionWindow : Option State → Option Nat
  | some (State.Dragging w _ _ _ _ _) => some w
  | _ => none

/-- Pointer position of the stored session, when it is `Dragging`. -/
def sessionPosition : Option State → Option Vector2F
  | some (State.Dragging _ pos _ _ _ _) => some pos
  | _ => none

/-- Grab offset and grab region of the stored session, when it is `Dragging`. -/
def sessionGrab : Option State → Option (Vector2F × RectF)
  | some (State.Dragging _ _ ro r _ _) => some (ro, r)
  | _ => none

/-- Discriminator: is this event a write to `currently_dragged`? -/
def isSetState : Event → Bool
  | Event.set_state _ => true
  | _ => false

/-- Concrete liveness oracle: every weak handle upgrades. -/
def aliveAll : Nat → Bool := fun _ => true

/-- Concrete drag event: pointer at (10,10), previous pointer (3,4), dragged
region with origin (5,6) and size (20,30). -/
def exEvent1 : MouseDrag := ⟨⟨10, 10⟩, ⟨3, 4⟩, ⟨⟨5, 6⟩, ⟨20, 30⟩⟩⟩

/-- Concrete drag event: pointer at (20,30), previous pointer (10,10), region
with origin (100,100) and size (1,1). -/
def exEvent2 : MouseDrag := ⟨⟨20, 30⟩, ⟨10, 10⟩, ⟨⟨100, 100⟩, ⟨1, 1⟩⟩⟩

/-- Concrete store: containers 1 (window 1) and 2 (window 2) registered, and a
live `Dragging` session in window 1 with payload tag 5. -/
def exStoreDragging : DragAndDrop :=
  ⟨[⟨1, 1⟩, ⟨2, 2⟩],
    some (State.Dragging 1 ⟨10, 10⟩ ⟨2, 2⟩ ⟨⟨5, 6⟩, ⟨20, 30⟩⟩ ⟨5, 42⟩ ⟨5, fun v => v⟩)⟩

/-- Concrete store: container 1 (window 1) registered and a `Canceled`
session. -/
def exStoreCanceled : DragAndDrop := ⟨[⟨1, 1⟩], some State.Canceled⟩

/-- Concrete drag call carrying `exEvent1` with payload tag 5, value 42. -/
def exCall1 : DragCall := ⟨exEvent1, 5, 42, fun v => v + 1⟩

/-- Concrete drag call carrying `exEvent2` with payload tag 5, value 42. -/
def exCall2 : DragCall := ⟨exEvent2, 5, 42, fun v => v + 1⟩

/-! Helper lemmas shared by the claim theorems. -/

theorem notify_preserves_session (s : DragAndDrop) (window_id : Nat) (alive : Nat → Bool) :
    (s.notify_containers_for_window window_id alive).1.currently_dragged =
      s.currently_dragged := rfl

theorem notifiedIds_containerEvents (cs : List Container) (window_id : Nat)
    (alive : Nat → Bool) :
    notifiedIds (containerEvents cs window_id alive) =
      (cs.filter fun c => alive c.id && c.window_id == window_id).map Container.id := by
  induction cs with
  | nil => rfl
  | cons c rest ih =>
      by_cases h1 : alive c.id
      · by_cases h2 : c.window_id = window_id <;>
          simp [containerEvents, notifiedIds, h1, h2, ih, List.filter_cons]
      · simp [containerEvents, notifiedIds, h1, ih, List.filter_cons]

theorem notifiedIds_append (l1 l2 : List Event) :
    notifiedIds (l1 ++ l2) = notifiedIds l1 ++ notifiedIds l2 := by
  induction l1 with
  | nil => rfl
  | cons e rest ih => cases e <;> simp [notifiedIds, ih]

/-- C1.  `currently_dragged::<T>(window_id)` (the spec's `currentDrag`)
returns a `(position, payload)` value exactly when the store holds a
`Dragging` session whose window is `window_id` and whose payload's runtime
type tag is `T`, in which case the value is the session's position and
payload; for a missing session, a `Canceled` session, a window mismatch or a
type mismatch it returns `none`.  The query is a total function into
`Option`, so it cannot panic or error. -/
theorem currentDrag_characterization (s : DragAndDrop) (T window_id : Nat) :
    s.currentlyDragged T window_id =
      match s.currently_dragged with
      | some (State.Dragging w pos _ _ payload _) =>
          if w = window_id ∧ payload.tag = T then some (pos, payload.val) else none
      | _ => none := by
  unfold DragAndDrop.currentlyDragged
  cases h : s.currently_dragged with
  | none => rfl
  | some st =>
      cases st with
      | Canceled => rfl
      | Dragging w pos ro r payload rf =>
          by_cases hw : window_id = w
          · subst hw
            by_cases ht : payload.tag = T <;>
              simp [Payload.is, Payload.downcast, ht]
          · have hw2 : ¬ (w = window_id) := fun hh => hw hh.symm
            simp [hw, hw2]

/-- C3.  `cancel_dragging::<P>` transitions the session to `Canceled` and
notifies (and prunes) the containers of the session's window exactly when a
`Dragging` session exists and its payload's runtime type tag is `P`; in every
other case (type mismatch, no session, already `Canceled`) the whole store is
returned unchanged and the event trace is empty. -/
theorem cancel_dragging_characterization (s : DragAndDrop) (P : Nat) (alive : Nat → Bool) :
    match s.currently_dragged with
    | some (State.Dragging window_id _ _ _ payload _) =>
        if payload.tag = P then
          s.cancel_dragging P alive =
            (⟨s.containers.filter fun c => alive c.id, some State.Canceled⟩,
              Event.set_state (some State.Canceled) ::
                containerEvents s.containers window_id alive)
        else s.cancel_dragging P alive = (s, [])
    | _ => s.cancel_dragging P alive = (s, []) := by
  cases h : s.currently_dragged with
  | none => simp [DragAndDrop.cancel_dragging, h]
  | some st =>
      cases st with
      | Canceled => simp [DragAndDrop.cancel_dragging, h]
      | Dragging w pos ro r payload rf =>
          by_cases ht : payload.tag = P <;>
            simp [DragAndDrop.cancel_dragging, DragAndDrop.notify_containers_for_window,
              h, Payload.is, ht]

/-- C8.  The renderer is a pure function of the store and the asking window:
no session renders nothing; a `Dragging` session of a different window renders
nothing; a `Dragging` session of the asking window renders an overlay anchored
at `position + region_offset`, constrained to the grab region's width and
height, containing the stored render closure applied to the stored payload
(and a `Canceled` session renders the capture element for every window). -/
theorem render_characterization (s : DragAndDrop) (w : Nat) :
    s.render w =
      match s.currently_dragged with
      | none => none
      | some (State.Dragging window_id pos ro r payload rf) =>
          if w = window_id then
            some (RenderOutput.overlay (pos + ro) r.width r.height (rf.apply payload))
          else none
      | some State.Canceled => some RenderOutput.capture := by
  unfold DragAndDrop.render
  cases h : s.currently_dragged with
  | none => rfl
  | some st =>
      cases st with
      | Canceled => rfl
      | Dragging wid pos ro r payload rf =>
          by_cases hw : w = wid
          · subst hw; simp
          · simp [hw]

theorem register_preserves_session (s : DragAndDrop) (c : Container) :
    (s.register_container c).currently_dragged = s.currently_dragged := by
  unfold DragAndDrop.register_container
  split <;> rfl

theorem dragging_session_of_dragging (s : DragAndDrop) (window_id : Nat) (ev : MouseDrag)
    (T v : Nat) (f : Nat → Nat) (alive : Nat → Bool) (w0 : Nat) (pos ro : Vector2F)
    (r : RectF) (p : Payload) (rf : RenderFn)
    (h : s.currently_dragged = some (State.Dragging w0 pos ro r p rf)) :
    (s.dragging window_id ev T v f alive).1.currently_dragged =
      some (State.Dragging window_id ev.position ro r ⟨T, v⟩ ⟨T, f⟩) := by
  simp [DragAndDrop.dragging, DragAndDrop.notify_containers_for_window, h]

theorem dragging_session_of_none (s : DragAndDrop) (window_id : Nat) (ev : MouseDrag)
    (T v : Nat) (f : Nat → Nat) (alive : Nat → Bool)
    (h : s.currently_dragged = none) :
    (s.dragging window_id ev T v f alive).1.currently_dragged =
      some (State.Dragging window_id ev.position
        (ev.region.origin - ev.prev_mouse_position) ev.region ⟨T, v⟩ ⟨T, f⟩) := by
  simp [DragAndDrop.dragging, DragAndDrop.notify_containers_for_window, h]

theorem dragging_session_of_canceled (s : DragAndDrop) (window_id : Nat) (ev : MouseDrag)
    (T v : Nat) (f : Nat → Nat) (alive : Nat → Bool)
    (h : s.currently_dragged = some State.Canceled) :
    (s.dragging window_id ev T v f alive).1.currently_dragged = some State.Canceled := by
  simp [DragAndDrop.dragging, DragAndDrop.notify_containers_for_window, h]

theorem dragging_notifiedIds (s : DragAndDrop) (window_id : Nat) (ev : MouseDrag)
    (T v : Nat) (f : Nat → Nat) (alive : Nat → Bool) :
    notifiedIds (s.dragging window_id ev T v f alive).2 =
      (s.containers.filter fun c => alive c.id && c.window_id == window_id).map
        Container.id := by
  unfold DragAndDrop.dragging DragAndDrop.notify_containers_for_window
  cases h : s.currently_dragged with
  | none => simp [notifiedIds_append, notifiedIds_containerEvents, notifiedIds]
  | some st =>
      cases st with
      | Canceled => simp [notifiedIds_containerEvents]
      | Dragging w0 pos ro r p rf =>
          simp [notifiedIds_append, notifiedIds_containerEvents, notifiedIds]

theorem applyDrags_session (window_id : Nat) (alive : Nat → Bool) :
    ∀ (ds : List DragCall) (s : DragAndDrop) (pos ro : Vector2F) (r : RectF)
      (p : Payload) (rf : RenderFn),
    s.currently_dragged = some (State.Dragging window_id pos ro r p rf) →
    ∃ p1 rf1, (applyDrags window_id alive s ds).currently_dragged =
      some (State.Dragging window_id
        ((ds.map fun x => x.event.position).getLastD pos) ro r p1 rf1) := by
  intro ds
  induction ds with
  | nil => intro s pos ro r p rf h; exact ⟨p, rf, by simpa [applyDrags] using h⟩
  | cons d rest ih =>
      intro s pos ro r p rf h
      have h1 := dragging_session_of_dragging s window_id d.event d.tag d.value d.render
        alive window_id pos ro r p rf h
      obtain ⟨p1, rf1, h2⟩ := ih (s.dragging window_id d.event d.tag d.value d.render alive).1
        d.event.position ro r ⟨d.tag, d.value⟩ ⟨d.tag, d.render⟩ h1
      refine ⟨p1, rf1, ?_⟩
      have h3 : applyDrags window_id alive s (d :: rest) =
          applyDrags window_id alive
            (s.dragging window_id d.event d.tag d.value d.render alive).1 rest := rfl
      rw [h3, List.map_cons, List.getLastD_cons]
      exact h2

/-- C2.  Starting with no session, after any nonempty sequence of
drag-continuation events in one window (no release or cancel in between), the
session's grab offset and grab region are the ones computed from the first
event only — region origin minus previous pointer position, and the first
event's region — while the pointer position is the latest event's position. -/
theorem drag_sequence_grab_first_position_latest (s : DragAndDrop) (window_id : Nat)
    (alive : Nat → Bool) (d : DragCall) (ds : List DragCall)
    (h : s.currently_dragged = none) :
    sessionGrab (applyDrags window_id alive s (d :: ds)).currently_dragged =
      some (d.event.region.origin - d.event.prev_mouse_position, d.event.region) ∧
    sessionPosition (applyDrags window_id alive s (d :: ds)).currently_dragged =
      some (((d :: ds).map fun x => x.event.position).getLastD d.event.position) ∧
    sessionWindow (applyDrags window_id alive s (d :: ds)).currently_dragged =
      some window_id := by
  have h1 := dragging_session_of_none s window_id d.event d.tag d.value d.render alive h
  obtain ⟨p1, rf1, h2⟩ := applyDrags_session window_id alive ds
    (s.dragging window_id d.event d.tag d.value d.render alive).1 d.event.position
    (d.event.region.origin - d.event.prev_mouse_position) d.event.region
    ⟨d.tag, d.value⟩ ⟨d.tag, d.render⟩ h1
  have h3 : applyDrags window_id alive s (d :: ds) =
      applyDrags window_id alive
        (s.dragging window_id d.event d.tag d.value d.render alive).1 ds := rfl
  rw [h3, h2]
  refine ⟨rfl, ?_, rfl⟩
  rw [List.map_cons, List.getLastD_cons]
  rfl

/-- Witness for C2, on the concrete two-event sequence `exCall1, exCall2` in
window 1: grab data from the first event ((5,6)-(3,4) = (2,2) and the first
region), position from the second event (20,30). -/
theorem drag_sequence_grab_first_position_latest_witness :
    sessionGrab (applyDrags 1 aliveAll DragAndDrop.default
        [exCall1, exCall2]).currently_dragged =
      some (⟨2, 2⟩, ⟨⟨5, 6⟩, ⟨20, 30⟩⟩) ∧
    sessionPosition (applyDrags 1 aliveAll DragAndDrop.default
        [exCall1, exCall2]).currently_dragged = some ⟨20, 30⟩ ∧
    sessionWindow (applyDrags 1 aliveAll DragAndDrop.default
        [exCall1, exCall2]).currently_dragged = some 1 :=
  drag_sequence_grab_first_position_latest DragAndDrop.default 1 aliveAll
    exCall1 [exCall2] rfl

/-- C4 counterexample.  Concrete input: `exStoreDragging` holds the active
session in window 1; a drag-continuation event (`exEvent2`, payload tag 7)
arrives for window 2.  The claim says the stored session is unchanged; in the
code `DragAndDrop::dragging` performs no window comparison, so the stored
session is replaced (its window becomes 2). -/
theorem crossWindow_drag_changes_session :
    (exStoreDragging.dragging 2 exEvent2 7 8 (fun v => v) aliveAll).1.currently_dragged ≠
      exStoreDragging.currently_dragged := fun h =>
  absurd (congrArg sessionWindow h) (by decide)

/-- C4 (amended).  A drag-continuation event arriving while a session of a
different window holds the Dragging state is not ignored: the session is
re-targeted to the event's window — `window_id`, `position`, `payload` and
`render` are replaced from the event while `region_offset` and `region` are
kept from the existing session — and the containers of the event's own window
are notified. -/
theorem crossWindow_drag_retargets_session (s : DragAndDrop) (wid1 wid2 : Nat)
    (pos ro : Vector2F) (r : RectF) (p : Payload) (rf : RenderFn) (ev : MouseDrag)
    (T v : Nat) (f : Nat → Nat) (alive : Nat → Bool)
    (h : s.currently_dragged = some (State.Dragging wid1 pos ro r p rf)) :
    (s.dragging wid2 ev T v f alive).1.currently_dragged =
      some (State.Dragging wid2 ev.position ro r ⟨T, v⟩ ⟨T, f⟩) ∧
    notifiedIds (s.dragging wid2 ev T v f alive).2 =
      (s.containers.filter fun c => alive c.id && c.window_id == wid2).map
        Container.id :=
  ⟨dragging_session_of_dragging s wid2 ev T v f alive wid1 pos ro r p rf h,
    dragging_notifiedIds s wid2 ev T v f alive⟩

/-- Witness for the amended C4, at the concrete input of the counterexample:
the session moves to window 2 keeping grab offset (2,2) and the old grab
region, and container 2 (the one in window 2) is notified. -/
theorem crossWindow_drag_retargets_session_witness :
    (exStoreDragging.dragging 2 exEvent2 7 8 (fun v => v) aliveAll).1.currently_dragged =
      some (State.Dragging 2 ⟨20, 30⟩ ⟨2, 2⟩ ⟨⟨5, 6⟩, ⟨20, 30⟩⟩ ⟨7, 8⟩
        ⟨7, fun v => v⟩) ∧
    notifiedIds (exStoreDragging.dragging 2 exEvent2 7 8 (fun v => v) aliveAll).2 =
      [2] :=
  crossWindow_drag_retargets_session exStoreDragging 1 2 ⟨10, 10⟩ ⟨2, 2⟩
    ⟨⟨5, 6⟩, ⟨20, 30⟩⟩ ⟨5, 42⟩ ⟨5, fun v => v⟩ exEvent2 7 8 (fun v => v) aliveAll rfl

/-- C5 counterexample.  Concrete input: `exStoreDragging` (session in window
1, live container 1 in window 1).  The claim says the release notification is
performed before the session is cleared, so the trace of `finish_dragging`
would be the notification pass followed by the clearing write; in the code
`self.currently_dragged.take()` runs first, so the clearing write comes
first. -/
theorem finish_dragging_notifies_after_clear :
    (exStoreDragging.finish_dragging aliveAll).2 ≠
      containerEvents exStoreDragging.containers 1 aliveAll ++
        [Event.set_state none] := fun h =>
  absurd (congrArg (List.map isSetState) h) (by decide)

/-- C5 (amended).  A pointer release while Dragging (both handlers call
`finish_dragging`) results in the Idle state with exactly one notification
pass over the session's window's containers: dead containers are pruned and
not notified, live ones of that window are each notified once — but the
session is cleared before the notification pass, not after. -/
theorem finish_dragging_clears_and_notifies (s : DragAndDrop) (alive : Nat → Bool)
    (wid : Nat) (pos ro : Vector2F) (r : RectF) (p : Payload) (rf : RenderFn)
    (h : s.currently_dragged = some (State.Dragging wid pos ro r p rf)) :
    (s.finish_dragging alive).1.currently_dragged = none ∧
    (s.finish_dragging alive).1.containers = s.containers.filter (fun c => alive c.id) ∧
    (s.finish_dragging alive).2 =
      Event.set_state none :: containerEvents s.containers wid alive ∧
    notifiedIds (s.finish_dragging alive).2 =
      (s.containers.filter fun c => alive c.id && c.window_id == wid).map
        Container.id := by
  refine ⟨?_, ?_, ?_, ?_⟩ <;>
    simp [DragAndDrop.finish_dragging, DragAndDrop.notify_containers_for_window, h,
      notifiedIds, notifiedIds_containerEvents]

/-- Witness for the amended C5 at `exStoreDragging`: the session in window 1
is cleared, both containers survive, the trace is the clearing write followed
by the notification of container 1, and container 1 (window 1) is the one
container notified. -/
theorem finish_dragging_clears_and_notifies_witness :
    (exStoreDragging.finish_dragging aliveAll).1.currently_dragged = none ∧
    (exStoreDragging.finish_dragging aliveAll).1.containers = [⟨1, 1⟩, ⟨2, 2⟩] ∧
    (exStoreDragging.finish_dragging aliveAll).2 =
      [Event.set_state none, Event.notified 1] ∧
    notifiedIds (exStoreDragging.finish_dragging aliveAll).2 = [1] :=
  finish_dragging_clears_and_notifies exStoreDragging aliveAll 1 ⟨10, 10⟩ ⟨2, 2⟩
    ⟨⟨5, 6⟩, ⟨20, 30⟩⟩ ⟨5, 42⟩ ⟨5, fun v => v⟩ rfl

/-- C6 counterexample.  Concrete input: `exStoreCanceled`, whose state is
`Canceled`.  The claim says invoking the finish-drag operation then leaves the
stored state unchanged; in the code `self.currently_dragged.take()` clears it
to `None` even in that case. -/
theorem finish_dragging_clears_canceled :
    (exStoreCanceled.finish_dragging aliveAll).1.currently_dragged ≠
      exStoreCanceled.currently_dragged := fun h =>
  absurd (congrArg Option.isNone h) (by decide)

/-- C6 (amended).  Invoking `finish_dragging` when the store is not Dragging
never notifies and never touches the registry; with an Idle store it is a
no-op, but with a `Canceled` store it clears the state to Idle (the
unconditional `take()`). -/
theorem finish_dragging_nondragging (s : DragAndDrop) (alive : Nat → Bool)
    (h : s.currently_dragged = none ∨ s.currently_dragged = some State.Canceled) :
    (s.finish_dragging alive).1.containers = s.containers ∧
    (s.finish_dragging alive).1.currently_dragged = none ∧
    (s.finish_dragging alive).2 = [Event.set_state none] := by
  rcases h with h | h <;> refine ⟨?_, ?_, ?_⟩ <;>
    simp [DragAndDrop.finish_dragging, h]

/-- Witness for the amended C6 at `exStoreCanceled`: the registry is
untouched, the state is cleared, and the trace is the lone clearing write (no
notification). -/
theorem finish_dragging_nondragging_witness :
    (exStoreCanceled.finish_dragging aliveAll).1.containers = [⟨1, 1⟩] ∧
    (exStoreCanceled.finish_dragging aliveAll).1.currently_dragged = none ∧
    (exStoreCanceled.finish_dragging aliveAll).2 = [Event.set_state none] :=
  finish_dragging_nondragging exStoreCanceled aliveAll (Or.inr rfl)

/-- C7.  A pointer release while Canceled (both the `on_up` and the
`on_up_out` handler of the capture element run `clear_canceled`) results in
the Idle state with zero container notifications, and the `currentDrag` query
afterwards returns nothing for every requested type and window. -/
theorem release_while_canceled_clears (s : DragAndDrop)
    (_h : s.currently_dragged = some State.Canceled) :
    s.clear_canceled.1.currently_dragged = none ∧
    notifiedIds s.clear_canceled.2 = [] ∧
    ∀ T w, s.clear_canceled.1.currentlyDragged T w = none :=
  ⟨rfl, rfl, fun _ _ => rfl⟩

/-- Witness for C7 at `exStoreCanceled`, with the query instantiated at type
tag 5 and window 1. -/
theorem release_while_canceled_clears_witness :
    exStoreCanceled.clear_canceled.1.currently_dragged = none ∧
    notifiedIds exStoreCanceled.clear_canceled.2 = [] ∧
    exStoreCanceled.clear_canceled.1.currentlyDragged 5 1 = none :=
  ⟨(release_while_canceled_clears exStoreCanceled rfl).1,
    (release_while_canceled_clears exStoreCanceled rfl).2.1,
    (release_while_canceled_clears exStoreCanceled rfl).2.2 5 1⟩

theorem dragging_session_cases (s : DragAndDrop) (window_id : Nat) (ev : MouseDrag)
    (T v : Nat) (f : Nat → Nat) (alive : Nat → Bool) :
    (s.dragging window_id ev T v f alive).1.currently_dragged = some State.Canceled ∨
    ∃ ro r, (s.dragging window_id ev T v f alive).1.currently_dragged =
      some (State.Dragging window_id ev.position ro r ⟨T, v⟩ ⟨T, f⟩) := by
  cases h : s.currently_dragged with
  | none =>
      exact Or.inr ⟨_, _, dragging_session_of_none s window_id ev T v f alive h⟩
  | some st =>
      cases st with
      | Canceled => exact Or.inl (dragging_session_of_canceled s window_id ev T v f alive h)
      | Dragging w0 pos ro r p rf =>
          exact Or.inr ⟨ro, r,
            dragging_session_of_dragging s window_id ev T v f alive w0 pos ro r p rf h⟩

theorem cancel_session_cases (s : DragAndDrop) (P : Nat) (alive : Nat → Bool) :
    (s.cancel_dragging P alive).1.currently_dragged = some State.Canceled ∨
    (s.cancel_dragging P alive).1.currently_dragged = s.currently_dragged := by
  cases h : s.currently_dragged with
  | none => exact Or.inr (by simp [DragAndDrop.cancel_dragging, h])
  | some st =>
      cases st with
      | Canceled => exact Or.inr (by simp [DragAndDrop.cancel_dragging, h])
      | Dragging w0 pos ro r p rf =>
          by_cases ht : p.tag = P
          · exact Or.inl (by
              simp [DragAndDrop.cancel_dragging, DragAndDrop.notify_containers_for_window,
                h, Payload.is, ht])
          · exact Or.inr (by simp [DragAndDrop.cancel_dragging, h, Payload.is, ht])

theorem finish_session_none (s : DragAndDrop) (alive : Nat → Bool) :
    (s.finish_dragging alive).1.currently_dragged = none := by
  cases h : s.currently_dragged with
  | none => simp [DragAndDrop.finish_dragging, h]
  | some st =>
      cases st with
      | Canceled => simp [DragAndDrop.finish_dragging, h]
      | Dragging w0 pos ro r p rf =>
          simp [DragAndDrop.finish_dragging, DragAndDrop.notify_containers_for_window, h]

/-- C9.  In every store reachable through the public operations, a live
`Dragging` session stores a payload whose runtime type tag equals the tag its
type-erased render closure downcasts to — the two were built from the same
type parameter of `DragAndDrop::dragging` — so applying the adapter to the
session's own payload always succeeds: the internal downcast-and-unwrap never
panics. -/
theorem reachable_payload_matches_render (s : DragAndDrop) (h : Reachable s) :
    ∀ wid (pos ro : Vector2F) (r : RectF) (p : Payload) (rf : RenderFn),
      s.currently_dragged = some (State.Dragging wid pos ro r p rf) →
      p.tag = rf.tag ∧ rf.apply p = some (rf.fn p.val) := by
  induction h with
  | init =>
      intro wid pos ro r p rf hd
      exact absurd hd (by simp [DragAndDrop.default])
  | register s' c _ ih =>
      intro wid pos ro r p rf hd
      rw [register_preserves_session] at hd
      exact ih wid pos ro r p rf hd
  | drag s' wid' ev T v f alive _ ih =>
      intro wid pos ro r p rf hd
      rcases dragging_session_cases s' wid' ev T v f alive with hc | ⟨ro', r', hD⟩
      · rw [hc] at hd; exact absurd hd (by simp)
      · rw [hD] at hd
        simp only [Option.some.injEq, State.Dragging.injEq] at hd
        obtain ⟨-, -, -, -, hp, hrf⟩ := hd
        subst hp hrf
        exact ⟨rfl, by simp [RenderFn.apply, Payload.downcast]⟩
  | cancel s' P alive _ ih =>
      intro wid pos ro r p rf hd
      rcases cancel_session_cases s' P alive with hc | he
      · rw [hc] at hd; exact absurd hd (by simp)
      · rw [he] at hd; exact ih wid pos ro r p rf hd
  | finish s' alive _ ih =>
      intro wid pos ro r p rf hd
      rw [finish_session_none] at hd
      exact absurd hd (by simp)
  | clear s' _ ih =>
      intro wid pos ro r p rf hd
      exact absurd hd (by simp [DragAndDrop.clear_canceled])

/-- Witness for C9: the store reached from the default store by one
drag-continuation event (`exEvent1`, payload tag 5, value 42, render
`v + 1`) holds matching tags, and the adapter applied to the stored payload
succeeds with the rendered content 43. -/
theorem reachable_payload_matches_render_witness :
    (Payload.mk 5 42).tag = (RenderFn.mk 5 (fun v => v + 1)).tag ∧
    RenderFn.apply ⟨5, fun v => v + 1⟩ ⟨5, 42⟩ = some 43 :=
  reachable_payload_matches_render
    (DragAndDrop.default.dragging 1 exEvent1 5 42 (fun v => v + 1) aliveAll).1
    (Reachable.drag DragAndDrop.default 1 exEvent1 5 42 (fun v => v + 1) aliveAll
      Reachable.init)
    1 ⟨10, 10⟩ ⟨2, 2⟩ ⟨⟨5, 6⟩, ⟨20, 30⟩⟩ ⟨5, 42⟩ ⟨5, fun v => v + 1⟩ rfl

/-- C10.  The `Canceled` state stores no window: after a successful
`cancel_dragging` the renderer produces the capture element for every asking
window, not only the session's original window; and while Canceled, a
drag-continuation event from any window leaves the stored drag state
unchanged (the early return of `DragAndDrop::dragging`). -/
theorem canceled_forgets_window (s : DragAndDrop) (P : Nat) (alive : Nat → Bool)
    (wid : Nat) (pos ro : Vector2F) (r : RectF) (p : Payload) (rf : RenderFn)
    (hd : s.currently_dragged = some (State.Dragging wid pos ro r p rf))
    (ht : p.tag = P) :
    (∀ w, (s.cancel_dragging P alive).1.render w = some RenderOutput.capture) ∧
    ∀ (s2 : DragAndDrop), s2.currently_dragged = some State.Canceled →
      ∀ wid2 (ev : MouseDrag) (T v : Nat) (f : Nat → Nat) (alive2 : Nat → Bool),
        (s2.dragging wid2 ev T v f alive2).1.currently_dragged =
          s2.currently_dragged := by
  constructor
  · intro w
    have hc : (s.cancel_dragging P alive).1.currently_dragged = some State.Canceled := by
      simp [DragAndDrop.cancel_dragging, DragAndDrop.notify_containers_for_window,
        hd, Payload.is, ht]
    simp [DragAndDrop.render, hc]
  · intro s2 h2 wid2 ev T v f alive2
    rw [dragging_session_of_canceled s2 wid2 ev T v f alive2 h2, h2]

/-- Witness for C10: cancel the tag-5 session of `exStoreDragging` (which
lives in window 1) and render for the unrelated window 7 — the capture
element appears there too; and a drag event for window 3 on the concrete
Canceled store leaves its state `Canceled`. -/
theorem canceled_forgets_window_witness :
    (exStoreDragging.cancel_dragging 5 aliveAll).1.render 7 =
      some RenderOutput.capture ∧
    (exStoreCanceled.dragging 3 exEvent2 9 1 (fun v => v) aliveAll).1.currently_dragged =
      exStoreCanceled.currently_dragged :=
  ⟨(canceled_forgets_window exStoreDragging 5 aliveAll 1 ⟨10, 10⟩ ⟨2, 2⟩
      ⟨⟨5, 6⟩, ⟨20, 30⟩⟩ ⟨5, 42⟩ ⟨5, fun v => v⟩ rfl rfl).1 7,
    (canceled_forgets_window exStoreDragging 5 aliveAll 1 ⟨10, 10⟩ ⟨2, 2⟩
      ⟨⟨5, 6⟩, ⟨20, 30⟩⟩ ⟨5, 42⟩ ⟨5, fun v => v⟩ rfl rfl).2 exStoreCanceled rfl
      3 exEvent2 9 1 (fun v => v) aliveAll⟩

end Dnd
